import Mathlib

/-!
Shallow embedding of the Airbnb-Lite booking & inventory reservation engine
(`app/services/booking.py`, `app/services/inventory.py`, `app/services/payment.py`
and the SQLAlchemy models in `app/models/`).

Python `date` values are modelled as `Int` (days); `timedelta(days=i)` is `+ i`;
`(d2 - d1).days` is `d2 - d1`.  `float` money amounts are modelled as `Rat`.
Database tables are modelled as lists of rows (`bookings`, `payments`, ...)
except the inventory table, which has a database-enforced uniqueness constraint
on `(room_id, date)` and is therefore modelled as a keyed partial map
`Ledger : Nat → Int → Option InvRecord`.  `scalar_one_or_none` on a list-backed
table is `List.find?`; mutating a fetched ORM row is a map-replace keyed on the
row's primary key.  Raising `HTTPException` is returning `Except.error` with the
error-taxonomy constructor of spec §7 that corresponds to the raised detail;
since an uncommitted session is rolled back, a raising operation returns the
world it was given.  Role/ownership authorization checks are kept where they
appear inline in the service code.
-/

namespace AirbnbLite

/-- `BookingStatus` enum from `app/models/booking.py`. -/
inductive BookingStatus where
  | PENDING | CONFIRMED | CANCELLED | CHECKED_IN | CHECKED_OUT | EXPIRED
deriving DecidableEq, Repr

/-- `PaymentStatus` enum from `app/models/payment.py`. -/
inductive PaymentStatus where
  | PENDING | COMPLETED | FAILED | REFUNDED
deriving DecidableEq, Repr

/-- `PaymentMethod` enum from `app/models/payment.py`. -/
inductive PaymentMethod where
  | CREDIT_CARD | DEBIT_CARD | UPI | NET_BANKING | WALLET
deriving DecidableEq, Repr

/-- `UserRole` from `app/models/user.py` (as used by the services). -/
inductive UserRole where
  | GUEST | HOTEL_ADMIN | ADMIN
deriving DecidableEq, Repr

/-- Error taxonomy of spec §7; each `HTTPException` site in the services maps to
the constructor matching its detail message. -/
inductive ApiError where
  | InvalidRequest
  | NotFound
  | NotAuthorized
  | NoInventory (d : Int)
  | InsufficientCapacity (d : Int)
  | InvalidState
  | AlreadyProcessed
  | AlreadyPaid
deriving DecidableEq, Repr

/-- The engine-relevant fields of `User`. -/
structure User where
  id : Nat
  role : UserRole
deriving DecidableEq, Repr

/-- The engine-relevant fields of `Hotel`. -/
structure Hotel where
  id : Nat
  owner_id : Nat
  is_active : Bool
deriving DecidableEq, Repr

/-- The engine-relevant fields of `Room`. -/
structure Room where
  id : Nat
  hotel_id : Nat
  total_count : Int
  base_price : Rat
deriving DecidableEq, Repr

/-- The engine-relevant fields of `Guest` (`app/models/guest.py`). -/
structure Guest where
  id : Nat
  user_id : Nat
deriving DecidableEq, Repr

/-- One row of the `inventories` table for a fixed `(room_id, date)` key
(`app/models/inventory.py`): `available_count` is total offered capacity,
`booked_count` the committed amount, `price` the nightly price. -/
structure InvRecord where
  available_count : Int
  booked_count : Int
  price : Rat
deriving DecidableEq, Repr

/-- The inventory table, keyed by its `(room_id, date)` uniqueness constraint. -/
def Ledger : Type := Nat → Int → Option InvRecord

/-- Write the row at key `(room, d)`. -/
def Ledger.set (L : Ledger) (room : Nat) (d : Int) (rec : InvRecord) : Ledger :=
  fun r' d' => if r' = room ∧ d' = d then some rec else L r' d'

/-- `Booking` row (`app/models/booking.py`); `guests` is the many-to-many
guest list (as guest ids, in list order as SQLAlchemy keeps it). -/
structure Booking where
  id : Nat
  user_id : Nat
  hotel_id : Nat
  room_id : Nat
  check_in_date : Int
  check_out_date : Int
  rooms_count : Int
  total_price : Rat
  status : BookingStatus
  special_requests : Option String
  cancellation_reason : Option String
  payment_session_id : Option String
  guests : List Nat
deriving DecidableEq, Repr

/-- `Payment` row (`app/models/payment.py`); `paid_at` is a timestamp. -/
structure Payment where
  id : Nat
  booking_id : Nat
  amount : Rat
  currency : String
  status : PaymentStatus
  payment_method : Option PaymentMethod
  transaction_id : Option String
  payment_session_id : Option String
  paid_at : Option Int
deriving DecidableEq, Repr

/-- The persistent state the engine's services read and write. -/
structure World where
  hotels : List Hotel
  rooms : List Room
  guestsTable : List Guest
  bookings : List Booking
  payments : List Payment
  ledger : Ledger

/-- `BookingCreate` request schema (`app/schemas/booking.py`). -/
structure BookingCreate where
  hotel_id : Nat
  room_id : Nat
  check_in_date : Int
  check_out_date : Int
  rooms_count : Int
  special_requests : Option String
deriving DecidableEq, Repr

/-- `InventoryUpdate` request schema (`app/schemas/inventory.py`): both fields
optional. -/
structure InventoryUpdate where
  available_count : Option Int
  price : Option Rat
deriving DecidableEq, Repr

/-- `InventoryBulkUpdate` request schema (`app/schemas/inventory.py`). -/
structure InventoryBulkUpdate where
  start_date : Int
  end_date : Int
  available_count : Option Int
  price : Option Rat
deriving DecidableEq, Repr

/-- `PaymentWebhookPayload` schema (`app/schemas/payment.py`). -/
structure WebhookPayload where
  payment_session_id : String
  transaction_id : String
  status : String
  amount : Rat
  currency : String
deriving DecidableEq, Repr

/-- The dates Python's `range(nights)` loop visits:
`check_in + 0, ..., check_in + (nights-1)`. -/
def rangeDates (start : Int) (n : Nat) : List Int :=
  (List.range n).map (fun (i : Nat) => start + (i : Int))

/-- `(check_out_date - check_in_date).days` for a booking. -/
def Booking.nightsCount (b : Booking) : Nat :=
  (b.check_out_date - b.check_in_date).toNat

/-- The nights `_reserve_inventory` / `_release_inventory` iterate over. -/
def bookingDates (b : Booking) : List Int :=
  rangeDates b.check_in_date b.nightsCount

/-- One iteration of the per-date mutation loops in `BookingService`: fetch the
row for `(room, d)`; if present, replace it with `f` of it, else skip
(`if inventory:` guard). -/
def stepDate (f : InvRecord → InvRecord) (room : Nat) (L : Ledger) (d : Int) : Ledger :=
  match L room d with
  | some inv => L.set room d (f inv)
  | none => L

/-- The per-date loop over a date list, mutating the ledger in loop order. -/
def applyPerDate (f : InvRecord → InvRecord) (room : Nat) : List Int → Ledger → Ledger
  | [], L => L
  | d :: ds, L => applyPerDate f room ds (stepDate f room L d)

/-- `BookingService._reserve_inventory`: for each night,
`inventory.booked_count += booking.rooms_count`. -/
def reserveInventory (b : Booking) (L : Ledger) : Ledger :=
  applyPerDate (fun inv => { inv with booked_count := inv.booked_count + b.rooms_count })
    b.room_id (bookingDates b) L

/-- `BookingService._release_inventory`: for each night,
`inventory.booked_count = max(0, inventory.booked_count - booking.rooms_count)`. -/
def releaseInventory (b : Booking) (L : Ledger) : Ledger :=
  applyPerDate (fun inv => { inv with booked_count := max 0 (inv.booked_count - b.rooms_count) })
    b.room_id (bookingDates b) L

/-- The availability-check / price-accumulation loop of
`BookingService.init_booking` (lines 66-89): per date, a missing row raises
"No inventory available for date d", insufficient
`available_count - booked_count` raises "Not enough rooms available for
date d", otherwise `total_price += inventory.price * rooms_count`. -/
def checkLoop (room : Nat) (rooms : Int) (L : Ledger) :
    List Int → Rat → Except ApiError Rat
  | [], acc => .ok acc
  | d :: ds, acc =>
    match L room d with
    | none => .error (.NoInventory d)
    | some inv =>
      if inv.available_count - inv.booked_count < rooms then
        .error (.InsufficientCapacity d)
      else
        checkLoop room rooms L ds (acc + inv.price * (rooms : Rat))

/-- `BookingService.init_booking`.  `today` is `date.today()`, `freshId` the
row id the database assigns to the new booking.  Structure mirrors the source:
date validations, hotel lookup (active only), room lookup (in that hotel),
the check/price loop, then creation of the `PENDING` booking followed by
`_reserve_inventory`. -/
def initBooking (user : User) (bd : BookingCreate) (today : Int) (freshId : Nat)
    (w : World) : Except ApiError Booking × World :=
  if bd.check_in_date ≥ bd.check_out_date then (.error .InvalidRequest, w)
  else if bd.check_in_date < today then (.error .InvalidRequest, w)
  else
    match w.hotels.find? (fun h => h.id == bd.hotel_id && h.is_active) with
    | none => (.error .NotFound, w)
    | some _hotel =>
      match w.rooms.find? (fun r => r.id == bd.room_id && r.hotel_id == bd.hotel_id) with
      | none => (.error .NotFound, w)
      | some room =>
        let dates := rangeDates bd.check_in_date (bd.check_out_date - bd.check_in_date).toNat
        match checkLoop room.id bd.rooms_count w.ledger dates 0 with
        | .error e => (.error e, w)
        | .ok total =>
          let b : Booking :=
            { id := freshId, user_id := user.id, hotel_id := bd.hotel_id,
              room_id := bd.room_id, check_in_date := bd.check_in_date,
              check_out_date := bd.check_out_date, rooms_count := bd.rooms_count,
              total_price := total, status := .PENDING,
              special_requests := bd.special_requests, cancellation_reason := none,
              payment_session_id := none, guests := [] }
          (.ok b,
           { w with bookings := w.bookings ++ [b], ledger := reserveInventory b w.ledger })

/-- `BookingService.get_booking_by_id`: fetch by id, then the ownership check
(owner, or `ADMIN` role, or owner of the booking's hotel). -/
def getBookingById (booking_id : Nat) (user : User) (w : World) : Except ApiError Booking :=
  match w.bookings.find? (fun b => b.id == booking_id) with
  | none => .error .NotFound
  | some b =>
    if b.user_id = user.id then .ok b
    else if user.role = .ADMIN then .ok b
    else
      match w.hotels.find? (fun h => h.id == b.hotel_id) with
      | some hotel => if hotel.owner_id = user.id then .ok b else .error .NotAuthorized
      | none => .error .NotAuthorized

/-- Replace the booking row with id `b'.id` by `b'` (ORM row mutation under the
primary-key identity map). -/
def World.putBooking (w : World) (b' : Booking) : World :=
  { w with bookings := w.bookings.map (fun b => if b.id = b'.id then b' else b) }

/-- Replace the payment row with id `p'.id` by `p'`. -/
def World.putPayment (w : World) (p' : Payment) : World :=
  { w with payments := w.payments.map (fun p => if p.id = p'.id then p' else p) }

/-- `BookingService.add_guests_to_booking`: status must be `PENDING` or
`CONFIRMED`; fetch the guests whose id is in `guest_ids` and that belong to the
requesting user; any shortfall is "Some guests not found"; otherwise
`booking.guests.extend(guests)`. -/
def addGuestsToBooking (booking_id : Nat) (user : User) (guest_ids : List Nat)
    (w : World) : Except ApiError Booking × World :=
  match getBookingById booking_id user w with
  | .error e => (.error e, w)
  | .ok b =>
    if b.status = .PENDING ∨ b.status = .CONFIRMED then
      let found := w.guestsTable.filter (fun g => guest_ids.contains g.id && g.user_id == user.id)
      if found.length = guest_ids.length then
        let b' := { b with guests := b.guests ++ found.map (·.id) }
        (.ok b', w.putBooking b')
      else (.error .NotFound, w)
    else (.error .InvalidState, w)

/-- `BookingService.cancel_booking`: reject only `CANCELLED` and `CHECKED_OUT`;
otherwise `_release_inventory`, set status `CANCELLED` and the cancellation
reason, and flip a `COMPLETED` payment of this booking to `REFUNDED`. -/
def cancelBooking (booking_id : Nat) (user : User) (reason : Option String)
    (w : World) : Except ApiError Booking × World :=
  match getBookingById booking_id user w with
  | .error e => (.error e, w)
  | .ok b =>
    if b.status = .CANCELLED ∨ b.status = .CHECKED_OUT then (.error .InvalidState, w)
    else
      let ledger' := releaseInventory b w.ledger
      let b' := { b with status := .CANCELLED, cancellation_reason := reason }
      let payments' := w.payments.map (fun p =>
        if p.booking_id = b.id ∧ p.status = .COMPLETED then { p with status := .REFUNDED } else p)
      (.ok b', { (w.putBooking b') with ledger := ledger', payments := payments' })

/-- Result of `PaymentService.initiate_payment` (the fields of the returned
session dict that belong to the engine). -/
structure InitiateResult where
  payment_session_id : Option String
  amount : Rat
  currency : String
deriving DecidableEq, Repr

/-- `PaymentService.initiate_payment`: fetch booking (404), ownership (403),
require status `PENDING`; an existing `COMPLETED` payment is "Payment already
completed", an existing `PENDING` payment is returned as-is; otherwise create a
`PENDING` payment with the fresh session id (amount = the booking's
`total_price`) and stamp the session id on the booking.  `freshSession` stands
for the generated `pay_session_{uuid}` and `freshId` for the database-assigned
payment row id. -/
def initiatePayment (booking_id : Nat) (user : User) (method : PaymentMethod)
    (freshSession : String) (freshId : Nat) (w : World) :
    Except ApiError InitiateResult × World :=
  match w.bookings.find? (fun b => b.id == booking_id) with
  | none => (.error .NotFound, w)
  | some b =>
    if b.user_id ≠ user.id then (.error .NotAuthorized, w)
    else if b.status ≠ .PENDING then (.error .InvalidState, w)
    else
      let existing := w.payments.find? (fun p => p.booking_id == booking_id)
      match existing with
      | some p =>
        if p.status = .COMPLETED then (.error .AlreadyPaid, w)
        else if p.status = .PENDING then
          (.ok { payment_session_id := p.payment_session_id, amount := p.amount,
                 currency := p.currency }, w)
        else
          let newPayment : Payment :=
            { id := freshId, booking_id := booking_id, amount := b.total_price,
              currency := "USD", status := .PENDING, payment_method := some method,
              transaction_id := none, payment_session_id := some freshSession,
              paid_at := none }
          let b' := { b with payment_session_id := some freshSession }
          (.ok { payment_session_id := some freshSession, amount := newPayment.amount,
                 currency := newPayment.currency },
           { (w.putBooking b') with payments := w.payments ++ [newPayment] })
      | none =>
        let newPayment : Payment :=
          { id := freshId, booking_id := booking_id, amount := b.total_price,
            currency := "USD", status := .PENDING, payment_method := some method,
            transaction_id := none, payment_session_id := some freshSession,
            paid_at := none }
        let b' := { b with payment_session_id := some freshSession }
        (.ok { payment_session_id := some freshSession, amount := newPayment.amount,
               currency := newPayment.currency },
         { (w.putBooking b') with payments := w.payments ++ [newPayment] })

/-- The engine fields of the dict `PaymentService.process_webhook` returns. -/
structure WebhookResult where
  payment_id : Nat
  booking_id : Nat
  booking_status : BookingStatus
  payment_status : PaymentStatus
deriving DecidableEq, Repr

/-- `PaymentService.process_webhook`: find the payment by session id (404
"Payment session not found"); "Payment already processed" unless it is
`PENDING`; fetch its booking (404); on `status == "success"` set the payment
`COMPLETED` with `transaction_id` and `paid_at = now` and the booking
`CONFIRMED`; on anything else set the payment `FAILED` with `transaction_id`
and the booking `EXPIRED`.  The inventory ledger is not touched. -/
def processWebhook (wd : WebhookPayload) (now : Int) (w : World) :
    Except ApiError WebhookResult × World :=
  match w.payments.find? (fun p => p.payment_session_id == some wd.payment_session_id) with
  | none => (.error .NotFound, w)
  | some p =>
    if p.status ≠ .PENDING then (.error .AlreadyProcessed, w)
    else
      match w.bookings.find? (fun b => b.id == p.booking_id) with
      | none => (.error .NotFound, w)
      | some b =>
        if wd.status = "success" then
          let p' := { p with
            status := .COMPLETED,
            transaction_id := some wd.transaction_id, paid_at := some now }
          let b' := { b with status := .CONFIRMED }
          (.ok { payment_id := p.id, booking_id := b.id,
                 booking_status := b'.status, payment_status := p'.status },
           (w.putPayment p').putBooking b')
        else
          let p' := { p with status := .FAILED, transaction_id := some wd.transaction_id }
          let b' := { b with status := .EXPIRED }
          (.ok { payment_id := p.id, booking_id := b.id,
                 booking_status := b'.status, payment_status := p'.status },
           (w.putPayment p').putBooking b')

/-- Python's `x or default` for the optional non-negative ints of the inventory
schemas: `None` and `0` are falsy. -/
def pyOrInt (v : Option Int) (default : Int) : Int :=
  match v with
  | some a => if a = 0 then default else a
  | none => default

/-- Python's `x or default` for the optional prices (`0` cannot occur: the
schema requires `gt=0`, but truthiness is modelled faithfully anyway). -/
def pyOrRat (v : Option Rat) (default : Rat) : Rat :=
  match v with
  | some a => if a = 0 then default else a
  | none => default

/-- `InventoryService.update_inventory` after `_verify_room_access` resolved
`room`: if no row exists for `(room.id, inv_date)`, create one with
`available_count or room.total_count`, `booked_count = 0`,
`price or room.base_price`; else set exactly the provided fields
(`model_dump(exclude_unset=True)`).  There is no failure path and no check of
`available_count` against the current `booked_count`. -/
def updateInventory (room : Room) (inv_date : Int) (upd : InventoryUpdate)
    (L : Ledger) : Ledger :=
  match L room.id inv_date with
  | none =>
    L.set room.id inv_date
      { available_count := pyOrInt upd.available_count room.total_count,
        booked_count := 0,
        price := pyOrRat upd.price room.base_price }
  | some inv =>
    L.set room.id inv_date
      { inv with
        available_count := upd.available_count.getD inv.available_count,
        price := upd.price.getD inv.price }

/-- One iteration of the `while current_date <= end_date` loop of
`InventoryService.bulk_update_inventory`: create a missing row with the
truthy-or defaults, else overwrite exactly the fields that are not `None`. -/
def bulkStep (room : Room) (bulk : InventoryBulkUpdate) (L : Ledger) (d : Int) : Ledger :=
  match L room.id d with
  | none =>
    L.set room.id d
      { available_count := pyOrInt bulk.available_count room.total_count,
        booked_count := 0,
        price := pyOrRat bulk.price room.base_price }
  | some inv =>
    L.set room.id d
      { inv with
        available_count := bulk.available_count.getD inv.available_count,
        price := bulk.price.getD inv.price }

/-- `InventoryService.bulk_update_inventory` after access verification:
`start_date > end_date` is "Start date must be before end date"; otherwise the
loop runs over `start_date, ..., end_date` inclusive. -/
def bulkUpdateInventory (room : Room) (bulk : InventoryBulkUpdate)
    (L : Ledger) : Except ApiError Ledger :=
  if bulk.start_date > bulk.end_date then .error .InvalidRequest
  else
    .ok ((rangeDates bulk.start_date ((bulk.end_date - bulk.start_date).toNat + 1)).foldl
          (bulkStep room bulk) L)

/-- Spec §8 / §3 ledger invariant: `0 ≤ committed ≤ total_offered` for every
existing record. -/
def LedgerInv (L : Ledger) : Prop :=
  ∀ room d rec, L room d = some rec →
    0 ≤ rec.booked_count ∧ rec.booked_count ≤ rec.available_count

/-- Spec-side total price: the sum over the nights of that night's
`nightly_price × rooms_count` as read from ledger `L` (0 for a missing
record; under a successful reservation every record exists). -/
def nightsTotal (room : Nat) (rooms : Int) (L : Ledger) : List Int → Rat
  | [] => 0
  | d :: ds =>
    (match L room d with
     | some inv => inv.price * (rooms : Rat)
     | none => 0) + nightsTotal room rooms L ds

/-! ### Generic lemmas about the per-date loops and the check loop -/

theorem ledger_set_get (L : Ledger) (room : Nat) (d : Int) (rec : InvRecord)
    (r' : Nat) (d' : Int) :
    L.set room d rec r' d' = if r' = room ∧ d' = d then some rec else L r' d' := rfl

theorem stepDate_get (f : InvRecord → InvRecord) (room : Nat) (L : Ledger)
    (d : Int) (r' : Nat) (d' : Int) :
    stepDate f room L d r' d' =
      if r' = room ∧ d' = d then (L room d).map f else L r' d' := by
  unfold stepDate
  rcases hL : L room d with _ | inv <;> dsimp only
  · by_cases hc : r' = room ∧ d' = d
    · obtain ⟨h1, h2⟩ := hc
      subst h1; subst h2
      simp [hL]
    · simp [hc]
  · rw [ledger_set_get]
    by_cases hc : r' = room ∧ d' = d
    · obtain ⟨h1, h2⟩ := hc
      subst h1; subst h2
      simp [hL]
    · simp [hc]

theorem applyPerDate_get (f : InvRecord → InvRecord) (room : Nat) (ds : List Int)
    (hnd : ds.Nodup) (L : Ledger) (r' : Nat) (d' : Int) :
    applyPerDate f room ds L r' d' =
      if r' = room ∧ d' ∈ ds then (L r' d').map f else L r' d' := by
  induction ds generalizing L with
  | nil => simp [applyPerDate]
  | cons d ds ih =>
    obtain ⟨hd, hnd'⟩ := List.nodup_cons.mp hnd
    rw [applyPerDate, ih hnd', stepDate_get]
    by_cases h1 : r' = room
    · subst h1
      by_cases h2 : d' ∈ ds
      · have hne : d' ≠ d := fun hh => hd (hh ▸ h2)
        simp [h2, hne, List.mem_cons]
      · by_cases h3 : d' = d
        · subst h3
          simp [h2, List.mem_cons]
        · simp [h2, h3, List.mem_cons]
    · simp [h1]

theorem rangeDates_nodup (start : Int) (n : Nat) : (rangeDates start n).Nodup := by
  have hinj : Function.Injective (fun i : Nat => start + (i : Int)) := by
    intro a b hab
    simp only at hab
    exact_mod_cast add_left_cancel hab
  exact List.Nodup.map hinj (List.nodup_range n)

theorem mem_rangeDates {start : Int} {n : Nat} {d : Int} :
    d ∈ rangeDates start n ↔ ∃ i : Nat, i < n ∧ d = start + i := by
  rw [rangeDates, List.mem_map]
  constructor
  · rintro ⟨i, hi, rfl⟩
    exact ⟨i, List.mem_range.mp hi, rfl⟩
  · rintro ⟨i, hi, rfl⟩
    exact ⟨i, List.mem_range.mpr hi, rfl⟩

theorem checkLoop_ok_mem {room : Nat} {rooms : Int} {L : Ledger} :
    ∀ {ds : List Int} {acc t : Rat}, checkLoop room rooms L ds acc = .ok t →
    ∀ d ∈ ds, ∃ inv, L room d = some inv ∧
      rooms ≤ inv.available_count - inv.booked_count := by
  intro ds
  induction ds with
  | nil => intro acc t _ d hd; cases hd
  | cons d ds ih =>
    intro acc t h d' hd'
    rw [checkLoop] at h
    rcases hL : L room d with _ | inv <;> rw [hL] at h <;> dsimp only at h
    · cases h
    · by_cases hc : inv.available_count - inv.booked_count < rooms
      · rw [if_pos hc] at h; cases h
      · rw [if_neg hc] at h
        rcases List.mem_cons.mp hd' with h1 | h1
        · exact h1 ▸ ⟨inv, hL, not_lt.mp hc⟩
        · exact ih h d' h1

theorem checkLoop_noInventory {room : Nat} {rooms : Int} {L : Ledger} :
    ∀ {ds : List Int} {acc : Rat} {d : Int},
    checkLoop room rooms L ds acc = .error (.NoInventory d) →
    d ∈ ds ∧ L room d = none := by
  intro ds
  induction ds with
  | nil => intro acc d h; cases h
  | cons d0 ds ih =>
    intro acc d h
    rw [checkLoop] at h
    rcases hL : L room d0 with _ | inv <;> rw [hL] at h <;> dsimp only at h
    · obtain rfl : d = d0 := by
        have := h
        injection this with h1
        injection h1 with h2
        exact h2.symm
      exact ⟨List.mem_cons_self _ _, hL⟩
    · by_cases hc : inv.available_count - inv.booked_count < rooms
      · rw [if_pos hc] at h; cases h
      · rw [if_neg hc] at h
        obtain ⟨hmem, hnone⟩ := ih h
        exact ⟨List.mem_cons_of_mem _ hmem, hnone⟩

theorem checkLoop_insufficient {room : Nat} {rooms : Int} {L : Ledger} :
    ∀ {ds : List Int} {acc : Rat} {d : Int},
    checkLoop room rooms L ds acc = .error (.InsufficientCapacity d) →
    d ∈ ds ∧ ∃ inv, L room d = some inv ∧
      inv.available_count - inv.booked_count < rooms := by
  intro ds
  induction ds with
  | nil => intro acc d h; cases h
  | cons d0 ds ih =>
    intro acc d h
    rw [checkLoop] at h
    rcases hL : L room d0 with _ | inv <;> rw [hL] at h <;> dsimp only at h
    · cases h
    · by_cases hc : inv.available_count - inv.booked_count < rooms
      · rw [if_pos hc] at h
        obtain rfl : d = d0 := by
          injection h with h1
          injection h1 with h2
          exact h2.symm
        exact ⟨List.mem_cons_self _ _, inv, hL, hc⟩
      · rw [if_neg hc] at h
        obtain ⟨hmem, hrest⟩ := ih h
        exact ⟨List.mem_cons_of_mem _ hmem, hrest⟩

theorem checkLoop_error_shape {room : Nat} {rooms : Int} {L : Ledger} :
    ∀ {ds : List Int} {acc : Rat} {e : ApiError},
    checkLoop room rooms L ds acc = .error e →
    (∃ d, e = .NoInventory d) ∨ (∃ d, e = .InsufficientCapacity d) := by
  intro ds
  induction ds with
  | nil => intro acc e h; cases h
  | cons d0 ds ih =>
    intro acc e h
    rw [checkLoop] at h
    rcases hL : L room d0 with _ | inv <;> rw [hL] at h <;> dsimp only at h
    · injection h with h1
      exact Or.inl ⟨d0, h1.symm⟩
    · by_cases hc : inv.available_count - inv.booked_count < rooms
      · rw [if_pos hc] at h
        injection h with h1
        exact Or.inr ⟨d0, h1.symm⟩
      · rw [if_neg hc] at h
        exact ih h

theorem checkLoop_ok_total {room : Nat} {rooms : Int} {L : Ledger} :
    ∀ {ds : List Int} {acc t : Rat}, checkLoop room rooms L ds acc = .ok t →
    t = acc + nightsTotal room rooms L ds := by
  intro ds
  induction ds with
  | nil =>
    intro acc t h
    rw [checkLoop] at h
    injection h with h1
    rw [← h1, nightsTotal, add_zero]
  | cons d0 ds ih =>
    intro acc t h
    rw [checkLoop] at h
    rcases hL : L room d0 with _ | inv <;> rw [hL] at h <;> dsimp only at h
    · cases h
    · by_cases hc : inv.available_count - inv.booked_count < rooms
      · rw [if_pos hc] at h; cases h
      · rw [if_neg hc] at h
        rw [nightsTotal, hL, ih h, add_assoc]

theorem getBookingById_ok_find {booking_id : Nat} {user : User} {w : World}
    {b : Booking} (h : getBookingById booking_id user w = .ok b) :
    w.bookings.find? (fun bb => bb.id == booking_id) = some b := by
  unfold getBookingById at h
  rcases hf : w.bookings.find? (fun bb => bb.id == booking_id) with _ | b0 <;> rw [hf] at h <;> dsimp only at h
  · cases h
  · by_cases h1 : b0.user_id = user.id
    · rw [if_pos h1] at h; injection h with h2; exact h2 ▸ hf
    · rw [if_neg h1] at h
      by_cases h2 : user.role = .ADMIN
      · rw [if_pos h2] at h; injection h with h3; exact h3 ▸ hf
      · rw [if_neg h2] at h
        rcases hh : w.hotels.find? (fun hh => hh.id == b0.hotel_id) with _ | hotel <;>
          rw [hh] at h <;> dsimp only at h
        · cases h
        · by_cases h3 : hotel.owner_id = user.id
          · rw [if_pos h3] at h; injection h with h4; exact h4 ▸ hf
          · rw [if_neg h3] at h; cases h

theorem bookingDates_nodup (b : Booking) : (bookingDates b).Nodup :=
  rangeDates_nodup b.check_in_date b.nightsCount

theorem releaseInventory_inv (b : Booking) (L : Ledger)
    (hr : 0 ≤ b.rooms_count) (hL : LedgerInv L) :
    LedgerInv (releaseInventory b L) := by
  intro room d rec h
  rw [releaseInventory, applyPerDate_get _ _ _ (bookingDates_nodup b)] at h
  by_cases hc : room = b.room_id ∧ d ∈ bookingDates b
  · rw [if_pos hc] at h
    rcases hL0 : L room d with _ | inv <;> rw [hL0] at h
    · cases h
    · rw [Option.map_some'] at h
      injection h with h1
      obtain ⟨h2, h3⟩ := hL room d inv hL0
      rw [← h1]
      refine ⟨le_max_left 0 _, ?_⟩
      exact max_le (le_trans h2 h3) (le_trans (sub_le_self _ hr) h3)
  · rw [if_neg hc] at h
    exact hL room d rec h

theorem find?_room_id {rooms : List Room} {rid hid : Nat} {room : Room}
    (h : rooms.find? (fun r => r.id == rid && r.hotel_id == hid) = some room) :
    room.id = rid := by
  have := List.find?_some h
  rw [Bool.and_eq_true] at this
  exact eq_of_beq this.1

theorem initBooking_inv (user : User) (bd : BookingCreate) (today : Int)
    (freshId : Nat) (w : World)
    (hInv : LedgerInv w.ledger) (hrooms : 0 ≤ bd.rooms_count) :
    LedgerInv (initBooking user bd today freshId w).2.ledger := by
  unfold initBooking
  split
  · exact hInv
  split
  · exact hInv
  split
  · exact hInv
  rename_i hotel hhotel
  split
  · exact hInv
  rename_i room hroom
  dsimp only
  split
  · exact hInv
  rename_i total hok
  have hrid : room.id = bd.room_id := find?_room_id hroom
  intro r d rec h
  dsimp only at h
  rw [reserveInventory, applyPerDate_get _ _ _ (bookingDates_nodup _)] at h
  by_cases hc : r = bd.room_id ∧
      d ∈ bookingDates
        { id := freshId, user_id := user.id, hotel_id := bd.hotel_id,
          room_id := bd.room_id, check_in_date := bd.check_in_date,
          check_out_date := bd.check_out_date, rooms_count := bd.rooms_count,
          total_price := total, status := .PENDING,
          special_requests := bd.special_requests, cancellation_reason := none,
          payment_session_id := none, guests := [] }
  · rw [if_pos hc] at h
    obtain ⟨hc1, hc2⟩ := hc
    have hmem : d ∈ rangeDates bd.check_in_date
        (bd.check_out_date - bd.check_in_date).toNat := hc2
    obtain ⟨inv, hinv, hcap⟩ := checkLoop_ok_mem hok d hmem
    rw [hrid] at hinv
    rw [hc1, hinv, Option.map_some'] at h
    injection h with h1
    obtain ⟨h2, h3⟩ := hInv bd.room_id d inv hinv
    rw [← h1]
    constructor
    · exact add_nonneg h2 hrooms
    · have : inv.booked_count + bd.rooms_count ≤ inv.available_count := by
        have := hcap
        omega
      exact this
  · rw [if_neg hc] at h
    exact hInv r d rec h

theorem cancelBooking_inv (booking_id : Nat) (user : User) (reason : Option String)
    (w : World) (hInv : LedgerInv w.ledger)
    (hall : ∀ b' ∈ w.bookings, 0 ≤ b'.rooms_count) :
    LedgerInv (cancelBooking booking_id user reason w).2.ledger := by
  unfold cancelBooking
  rcases hg : getBookingById booking_id user w with e | b <;> dsimp only
  · exact hInv
  · split
    · exact hInv
    · have hb : b ∈ w.bookings :=
        List.mem_of_find?_eq_some (getBookingById_ok_find hg)
      exact releaseInventory_inv b w.ledger (hall b hb) hInv

/-! ### C1 -/

/-- C1 (amended): the engine's reserve (`init_booking`), release
(`_release_inventory`) and cancel operations preserve
`0 ≤ committed ≤ total_offered` on every inventory record, provided it held
before (and rooms counts are non-negative, as the schema's `ge=1` guarantees).
Administrative edits are NOT guarded: `update_inventory` has no capacity check
(see the counterexample). -/
theorem ledger_invariant_engine_ops
    (user : User) (bd : BookingCreate) (today : Int) (freshId : Nat) (w : World)
    (b : Booking) (L : Ledger) (booking_id : Nat) (reason : Option String)
    (hInvW : LedgerInv w.ledger) (hbd : 0 ≤ bd.rooms_count)
    (hInvL : LedgerInv L) (hb : 0 ≤ b.rooms_count)
    (hall : ∀ b' ∈ w.bookings, 0 ≤ b'.rooms_count) :
    LedgerInv (initBooking user bd today freshId w).2.ledger ∧
    LedgerInv (releaseInventory b L) ∧
    LedgerInv (cancelBooking booking_id user reason w).2.ledger :=
  ⟨initBooking_inv user bd today freshId w hInvW hbd,
   releaseInventory_inv b L hb hInvL,
   cancelBooking_inv booking_id user reason w hInvW hall⟩

/-- A room used by the concrete scenarios. -/
def roomX : Room := { id := 1, hotel_id := 1, total_count := 5, base_price := 100 }

/-- A one-record ledger: room 1, date 0, `total_offered = 2`, `committed = 2`. -/
def ledgerFull : Ledger := fun r d =>
  if r = 1 ∧ d = 0 then some { available_count := 2, booked_count := 2, price := 100 }
  else none

/-- C1 counterexample: the invariant holds on `ledgerFull`, yet the
administrative edit `update_inventory(room 1, date 0, available_count := 1)`
succeeds (there is no `InvalidCapacity` failure path in
`InventoryService.update_inventory` at all) and leaves the record with
`committed = 2 > 1 = total_offered`. -/
theorem update_inventory_breaks_invariant :
    LedgerInv ledgerFull ∧
    updateInventory roomX 0 { available_count := some 1, price := none } ledgerFull 1 0 =
      some { available_count := 1, booked_count := 2, price := 100 } ∧
    ¬ LedgerInv
      (updateInventory roomX 0 { available_count := some 1, price := none } ledgerFull) := by
  refine ⟨?_, rfl, ?_⟩
  · intro room d rec h
    unfold ledgerFull at h
    by_cases hc : room = 1 ∧ d = 0
    · rw [if_pos hc] at h
      injection h with h1
      rw [← h1]
      exact ⟨by decide, by decide⟩
    · rw [if_neg hc] at h
      cases h
  · intro hInv
    have h := hInv 1 0 { available_count := 1, booked_count := 2, price := 100 } rfl
    exact absurd h.2 (by decide)

/-- An empty world used to witness `ledger_invariant_engine_ops`. -/
def emptyWorld : World :=
  { hotels := [], rooms := [], guestsTable := [], bookings := [], payments := [],
    ledger := fun _ _ => none }

/-- A throwaway booking used by witnesses. -/
def bkX : Booking :=
  { id := 1, user_id := 1, hotel_id := 1, room_id := 1, check_in_date := 0,
    check_out_date := 2, rooms_count := 1, total_price := 200, status := .PENDING,
    special_requests := none, cancellation_reason := none,
    payment_session_id := none, guests := [] }

/-- Witness for C1's amended theorem at a concrete world. -/
theorem ledger_invariant_engine_ops_witness :
    LedgerInv (initBooking { id := 1, role := .GUEST }
      { hotel_id := 1, room_id := 1, check_in_date := 0, check_out_date := 2,
        rooms_count := 1, special_requests := none } 0 7 emptyWorld).2.ledger ∧
    LedgerInv (releaseInventory bkX (fun _ _ => none)) ∧
    LedgerInv (cancelBooking 1 { id := 1, role := .GUEST } none emptyWorld).2.ledger :=
  ledger_invariant_engine_ops { id := 1, role := .GUEST }
    { hotel_id := 1, room_id := 1, check_in_date := 0, check_out_date := 2,
      rooms_count := 1, special_requests := none } 0 7 emptyWorld bkX
    (fun _ _ => none) 1 none
    (fun _ _ _ h => nomatch h) (by decide)
    (fun _ _ _ h => nomatch h) (by decide)
    (by intro b' hb'; cases hb')

/-! ### C2 -/

/-- C2: a reservation request (once past the request-shape validations) either
fails with `NoInventory d` for a date `d` of the half-open range with no
inventory record, or with `InsufficientCapacity d` for a date with fewer than
`rooms_count` free units — leaving every inventory record and the bookings
table exactly as they were, with no booking created — or, when every date
passes, commits `rooms_count` additional units on every date of the range and
appends exactly one new booking in status `PENDING`. -/
theorem init_booking_all_or_nothing
    (user : User) (bd : BookingCreate) (today : Int) (freshId : Nat) (w : World)
    (hotel : Hotel) (room : Room)
    (hdates : bd.check_in_date < bd.check_out_date)
    (htoday : today ≤ bd.check_in_date)
    (hhotel : w.hotels.find? (fun h => h.id == bd.hotel_id && h.is_active) = some hotel)
    (hroom : w.rooms.find? (fun r => r.id == bd.room_id && r.hotel_id == bd.hotel_id) =
      some room) :
    (∀ e, (initBooking user bd today freshId w).1 = .error e →
        (initBooking user bd today freshId w).2 = w ∧
        ((∃ d, e = .NoInventory d) ∨ (∃ d, e = .InsufficientCapacity d))) ∧
    (∀ d, (initBooking user bd today freshId w).1 = .error (.NoInventory d) →
        d ∈ rangeDates bd.check_in_date (bd.check_out_date - bd.check_in_date).toNat ∧
        w.ledger bd.room_id d = none) ∧
    (∀ d, (initBooking user bd today freshId w).1 = .error (.InsufficientCapacity d) →
        d ∈ rangeDates bd.check_in_date (bd.check_out_date - bd.check_in_date).toNat ∧
        ∃ inv, w.ledger bd.room_id d = some inv ∧
          inv.available_count - inv.booked_count < bd.rooms_count) ∧
    ((∃ d ∈ rangeDates bd.check_in_date (bd.check_out_date - bd.check_in_date).toNat,
        w.ledger bd.room_id d = none ∨
        ∃ inv, w.ledger bd.room_id d = some inv ∧
          inv.available_count - inv.booked_count < bd.rooms_count) →
      ∃ e, (initBooking user bd today freshId w).1 = .error e) ∧
    (∀ b w2, initBooking user bd today freshId w = (.ok b, w2) →
        b.status = .PENDING ∧ w2.bookings = w.bookings ++ [b] ∧
        (∀ d ∈ rangeDates bd.check_in_date (bd.check_out_date - bd.check_in_date).toNat,
          ∃ inv, w.ledger bd.room_id d = some inv ∧
            w2.ledger bd.room_id d =
              some { inv with booked_count := inv.booked_count + bd.rooms_count }) ∧
        (∀ r2 d2, ¬(r2 = bd.room_id ∧
            d2 ∈ rangeDates bd.check_in_date (bd.check_out_date - bd.check_in_date).toNat) →
          w2.ledger r2 d2 = w.ledger r2 d2)) := by
  have hrid : room.id = bd.room_id := find?_room_id hroom
  have h1 : ¬ bd.check_in_date ≥ bd.check_out_date := not_le.mpr hdates
  have h2 : ¬ bd.check_in_date < today := not_lt.mpr htoday
  unfold initBooking
  rw [if_neg h1, if_neg h2, hhotel, hroom]
  dsimp only
  rcases hck : checkLoop room.id bd.rooms_count w.ledger
      (rangeDates bd.check_in_date (bd.check_out_date - bd.check_in_date).toNat) 0 with
      e0 | total <;> dsimp only
  · refine ⟨?_, ?_, ?_, ?_, ?_⟩
    · intro e he
      injection he with he1
      subst he1
      exact ⟨rfl, checkLoop_error_shape hck⟩
    · intro d he
      injection he with he1
      rw [he1] at hck
      have h3 := checkLoop_noInventory hck
      rw [hrid] at h3
      exact h3
    · intro d he
      injection he with he1
      rw [he1] at hck
      have h3 := checkLoop_insufficient hck
      rw [hrid] at h3
      exact h3
    · intro _
      exact ⟨e0, rfl⟩
    · intro b w2 hok
      exact absurd (congrArg Prod.fst hok) (by simp)
  · refine ⟨?_, ?_, ?_, ?_, ?_⟩
    · intro e he
      exact Except.noConfusion he
    · intro d he
      exact Except.noConfusion he
    · intro d he
      exact Except.noConfusion he
    · rintro ⟨d, hdm, hbad⟩
      obtain ⟨inv, hinv, hcap⟩ := checkLoop_ok_mem hck d hdm
      rw [hrid] at hinv
      rcases hbad with hnone | ⟨inv2, hinv2, hlt⟩
      · rw [hinv] at hnone
        cases hnone
      · rw [hinv] at hinv2
        injection hinv2 with h3
        subst h3
        exact absurd hcap (not_le.mpr hlt)
    · intro b w2 hok
      have hb1 := congrArg Prod.fst hok
      dsimp only at hb1
      injection hb1 with hb1
      have hw := congrArg Prod.snd hok
      dsimp only at hw
      subst hw
      subst hb1
      refine ⟨rfl, rfl, ?_, ?_⟩
      · intro d hdm
        obtain ⟨inv, hinv, hcap⟩ := checkLoop_ok_mem hck d hdm
        rw [hrid] at hinv
        refine ⟨inv, hinv, ?_⟩
        dsimp only
        rw [reserveInventory, applyPerDate_get _ _ _ (bookingDates_nodup _)]
        rw [if_pos ⟨rfl, hdm⟩, hinv, Option.map_some']
      · intro r2 d2 hnc
        dsimp only
        rw [reserveInventory, applyPerDate_get _ _ _ (bookingDates_nodup _)]
        exact if_neg hnc

/-- The requesting guest user of the concrete scenarios. -/
def u1 : User := { id := 1, role := .GUEST }

/-- An active hotel owned by user 2. -/
def hotelA : Hotel := { id := 1, owner_id := 2, is_active := true }

/-- A two-night reservation request for room 1 of hotel 1. -/
def bd1 : BookingCreate :=
  { hotel_id := 1, room_id := 1, check_in_date := 0, check_out_date := 2,
    rooms_count := 1, special_requests := none }

/-- A world whose ledger has a record only for date 0 (so date 1 is missing). -/
def c2World : World :=
  { hotels := [hotelA], rooms := [roomX], guestsTable := [], bookings := [],
    payments := [],
    ledger := fun r d =>
      if r = 1 ∧ d = 0 then some { available_count := 2, booked_count := 0, price := 100 }
      else none }

/-- Witness for C2 at a concrete world: date 1 of the requested range has no
inventory record, the call fails naming it, and the world is unchanged. -/
theorem init_booking_all_or_nothing_witness :
    (1 : Int) ∈ rangeDates 0 2 ∧ c2World.ledger 1 1 = none ∧
    (initBooking u1 bd1 0 5 c2World).2 = c2World := by
  have h := init_booking_all_or_nothing u1 bd1 0 5 c2World hotelA roomX
    (by decide) (by decide) (by rfl) (by rfl)
  have h2 := h.2.1 1 (by rfl)
  have h1 := h.1 (.NoInventory 1) (by rfl)
  exact ⟨h2.1, h2.2, h1.1⟩

/-! ### C7 -/

/-- C7: a booking created by a successful reservation has `total_price` equal
to the sum, over every night of the half-open range, of that night's ledger
price times `rooms_count` as read at commit time; and a payment freshly
created by `initiate_payment` has `amount` drawn from the booking row's
`total_price`, not recomputed from the ledger. -/
theorem total_price_snapshot
    (user : User) (bd : BookingCreate) (today : Int) (freshId : Nat) (w : World) :
    (∀ b w2, initBooking user bd today freshId w = (.ok b, w2) →
        b.total_price = nightsTotal bd.room_id bd.rooms_count w.ledger
          (rangeDates bd.check_in_date (bd.check_out_date - bd.check_in_date).toNat)) ∧
    (∀ (booking_id freshPayId : Nat) (u2 : User) (method : PaymentMethod)
        (fresh : String) (w2 : World) (b : Booking),
        w2.bookings.find? (fun bb => bb.id == booking_id) = some b →
        b.user_id = u2.id → b.status = .PENDING →
        w2.payments.find? (fun p => p.booking_id == booking_id) = none →
        (initiatePayment booking_id u2 method fresh freshPayId w2).2.payments =
          w2.payments ++
            [{ id := freshPayId, booking_id := booking_id, amount := b.total_price,
               currency := "USD", status := .PENDING, payment_method := some method,
               transaction_id := none, payment_session_id := some fresh,
               paid_at := none }]) := by
  constructor
  · intro b w2 hok
    unfold initBooking at hok
    split at hok
    · exact absurd (congrArg Prod.fst hok) (by simp)
    · split at hok
      · exact absurd (congrArg Prod.fst hok) (by simp)
      · split at hok
        · exact absurd (congrArg Prod.fst hok) (by simp)
        · rename_i hotel hhotel
          split at hok
          · exact absurd (congrArg Prod.fst hok) (by simp)
          · rename_i room hroom
            dsimp only at hok
            split at hok
            · exact absurd (congrArg Prod.fst hok) (by simp)
            · rename_i total hck
              have hrid : room.id = bd.room_id := find?_room_id hroom
              have hb1 := congrArg Prod.fst hok
              dsimp only at hb1
              injection hb1 with hb1
              have ht := checkLoop_ok_total hck
              rw [hrid] at ht
              rw [← hb1]
              dsimp only
              rw [ht, zero_add]
  · intro booking_id freshPayId u2 method fresh w2 b hfind howner hstatus hnopay
    unfold initiatePayment
    rw [hfind]
    dsimp only
    rw [if_neg (not_not_intro howner), if_neg (not_not_intro hstatus), hnopay]

/-- A `PENDING` booking used by the payment scenarios. -/
def bkP : Booking :=
  { id := 3, user_id := 1, hotel_id := 1, room_id := 1, check_in_date := 0,
    check_out_date := 2, rooms_count := 1, total_price := 200, status := .PENDING,
    special_requests := none, cancellation_reason := none,
    payment_session_id := none, guests := [] }

/-- A world holding the `PENDING` booking `bkP` and no payment yet. -/
def c7World : World :=
  { hotels := [hotelA], rooms := [roomX], guestsTable := [], bookings := [bkP],
    payments := [], ledger := fun _ _ => none }

/-- Witness for C7: initiating payment for `bkP` creates the one payment row,
with `amount` equal to `bkP.total_price = 200`. -/
theorem total_price_snapshot_witness :
    (initiatePayment 3 u1 .CREDIT_CARD "sess1" 9 c7World).2.payments =
      [{ id := 9, booking_id := 3, amount := 200, currency := "USD",
         status := .PENDING, payment_method := some .CREDIT_CARD,
         transaction_id := none, payment_session_id := some "sess1",
         paid_at := none }] := by
  have h := (total_price_snapshot u1 bd1 0 5 c2World).2 3 9 u1 .CREDIT_CARD
    "sess1" c7World bkP (by rfl) (by rfl) (by rfl) (by rfl)
  exact h.trans (by rfl)

/-! ### C3 -/

/-- C3: `process_webhook` fails `NotFound` when no payment has the session id,
fails `AlreadyProcessed` when the payment is not `PENDING` (so any replayed
delivery fails without side effects), and otherwise settles: on outcome
"success" the payment becomes `COMPLETED` with `transaction_id` and `paid_at`
recorded and the booking becomes `CONFIRMED`; on any other outcome the payment
becomes `FAILED` with `transaction_id` recorded and the booking becomes
`EXPIRED`.  The inventory ledger is untouched in every case. -/
theorem process_webhook_spec (wd : WebhookPayload) (now : Int) (w : World) :
    (w.payments.find? (fun p => p.payment_session_id == some wd.payment_session_id) = none →
        processWebhook wd now w = (.error .NotFound, w)) ∧
    (∀ p, w.payments.find?
          (fun p => p.payment_session_id == some wd.payment_session_id) = some p →
        p.status ≠ .PENDING →
        processWebhook wd now w = (.error .AlreadyProcessed, w)) ∧
    (∀ p b, w.payments.find?
          (fun p => p.payment_session_id == some wd.payment_session_id) = some p →
        p.status = .PENDING →
        w.bookings.find? (fun bb => bb.id == p.booking_id) = some b →
        (processWebhook wd now w).2.ledger = w.ledger ∧
        (wd.status = "success" →
          (processWebhook wd now w).1 =
            .ok { payment_id := p.id, booking_id := b.id,
                  booking_status := .CONFIRMED, payment_status := .COMPLETED } ∧
          { p with
              status := .COMPLETED, transaction_id := some wd.transaction_id,
              paid_at := some now } ∈ (processWebhook wd now w).2.payments ∧
          { b with status := .CONFIRMED } ∈ (processWebhook wd now w).2.bookings) ∧
        (wd.status ≠ "success" →
          (processWebhook wd now w).1 =
            .ok { payment_id := p.id, booking_id := b.id,
                  booking_status := .EXPIRED, payment_status := .FAILED } ∧
          { p with status := .FAILED, transaction_id := some wd.transaction_id } ∈
            (processWebhook wd now w).2.payments ∧
          { b with status := .EXPIRED } ∈ (processWebhook wd now w).2.bookings)) := by
  refine ⟨?_, ?_, ?_⟩
  · intro hnone
    unfold processWebhook
    rw [hnone]
  · intro p hfind hst
    unfold processWebhook
    rw [hfind]
    dsimp only
    rw [if_pos hst]
  · intro p b hfind hst hbfind
    have hp : p ∈ w.payments := List.mem_of_find?_eq_some hfind
    have hb : b ∈ w.bookings := List.mem_of_find?_eq_some hbfind
    unfold processWebhook
    rw [hfind]
    dsimp only
    rw [if_neg (not_not_intro hst), hbfind]
    dsimp only
    by_cases hs : wd.status = "success"
    · rw [if_pos hs]
      refine ⟨rfl, ?_, ?_⟩
      · intro _
        refine ⟨rfl, ?_, ?_⟩
        · dsimp only [World.putBooking, World.putPayment]
          have hm := List.mem_map_of_mem
            (fun q => if q.id = ({ p with
                status := .COMPLETED, transaction_id := some wd.transaction_id,
                paid_at := some now } : Payment).id
              then { p with
                status := .COMPLETED, transaction_id := some wd.transaction_id,
                paid_at := some now } else q) hp
          dsimp only at hm
          rw [if_pos rfl] at hm
          exact hm
        · dsimp only [World.putBooking, World.putPayment]
          have hm := List.mem_map_of_mem
            (fun q => if q.id = ({ b with status := .CONFIRMED } : Booking).id
              then { b with status := .CONFIRMED } else q) hb
          dsimp only at hm
          rw [if_pos rfl] at hm
          exact hm
      · intro hns
        exact absurd hs hns
    · rw [if_neg hs]
      refine ⟨rfl, ?_, ?_⟩
      · intro hys
        exact absurd hys hs
      · intro _
        refine ⟨rfl, ?_, ?_⟩
        · dsimp only [World.putBooking, World.putPayment]
          have hm := List.mem_map_of_mem
            (fun q => if q.id = ({ p with
                status := .FAILED, transaction_id := some wd.transaction_id } : Payment).id
              then { p with
                status := .FAILED, transaction_id := some wd.transaction_id } else q) hp
          dsimp only at hm
          rw [if_pos rfl] at hm
          exact hm
        · dsimp only [World.putBooking, World.putPayment]
          have hm := List.mem_map_of_mem
            (fun q => if q.id = ({ b with status := .EXPIRED } : Booking).id
              then { b with status := .EXPIRED } else q) hb
          dsimp only at hm
          rw [if_pos rfl] at hm
          exact hm

/-- A `PENDING` payment for booking `bkP` under session "s1". -/
def payP : Payment :=
  { id := 9, booking_id := 3, amount := 200, currency := "USD", status := .PENDING,
    payment_method := some .CREDIT_CARD, transaction_id := none,
    payment_session_id := some "s1", paid_at := none }

/-- A world with the `PENDING` booking `bkP` and its `PENDING` payment. -/
def c3World : World :=
  { hotels := [hotelA], rooms := [roomX], guestsTable := [], bookings := [bkP],
    payments := [payP], ledger := fun _ _ => none }

/-- The mock gateway's success webhook for session "s1". -/
def whSuccess : WebhookPayload :=
  { payment_session_id := "s1", transaction_id := "tx1", status := "success",
    amount := 200, currency := "USD" }

/-- Witness for C3: the success webhook settles the concrete payment and
confirms the concrete booking. -/
theorem process_webhook_spec_witness :
    (processWebhook whSuccess 7 c3World).1 =
      .ok { payment_id := 9, booking_id := 3,
            booking_status := .CONFIRMED, payment_status := .COMPLETED } ∧
    { payP with
        status := .COMPLETED, transaction_id := some "tx1",
        paid_at := some 7 } ∈ (processWebhook whSuccess 7 c3World).2.payments ∧
    { bkP with status := .CONFIRMED } ∈ (processWebhook whSuccess 7 c3World).2.bookings := by
  have h := ((process_webhook_spec whSuccess 7 c3World).2.2 payP bkP
    (by rfl) (by rfl) (by rfl)).2.1 (by rfl)
  exact h

/-! ### C4 -/

/-- C4 (amended): `cancel_booking` rejects with `InvalidState` (leaving the
world unchanged) exactly when the booking is `CANCELLED` or `CHECKED_OUT`;
from every other status — including `CHECKED_IN` and the terminal `EXPIRED`,
contrary to the spec — it succeeds and returns the booking cancelled. -/
theorem cancel_booking_state_guard
    (booking_id : Nat) (user : User) (reason : Option String) (w : World)
    (b : Booking) (hb : getBookingById booking_id user w = .ok b) :
    ((b.status = .CANCELLED ∨ b.status = .CHECKED_OUT) →
        cancelBooking booking_id user reason w = (.error .InvalidState, w)) ∧
    (b.status ≠ .CANCELLED → b.status ≠ .CHECKED_OUT →
        (cancelBooking booking_id user reason w).1 =
          .ok { b with status := .CANCELLED, cancellation_reason := reason }) := by
  unfold cancelBooking
  rw [hb]
  dsimp only
  constructor
  · intro h
    rw [if_pos h]
  · intro h1 h2
    rw [if_neg (by rintro (h | h); exacts [h1 h, h2 h])]

/-- An `EXPIRED` booking owned by user 1. -/
def bkE : Booking :=
  { id := 4, user_id := 1, hotel_id := 1, room_id := 1, check_in_date := 0,
    check_out_date := 2, rooms_count := 1, total_price := 200, status := .EXPIRED,
    special_requests := none, cancellation_reason := none,
    payment_session_id := none, guests := [] }

/-- A world holding only the `EXPIRED` booking `bkE`. -/
def c4World : World :=
  { hotels := [hotelA], rooms := [roomX], guestsTable := [], bookings := [bkE],
    payments := [], ledger := fun _ _ => none }

/-- C4 counterexample: cancelling the `EXPIRED` booking `bkE` succeeds (the
guard in `cancel_booking` checks only `CANCELLED` and `CHECKED_OUT`), where the
claim requires an `InvalidState` failure. -/
theorem cancel_expired_succeeds :
    bkE.status = .EXPIRED ∧
    (cancelBooking 4 u1 (some "why") c4World).1 =
      .ok { bkE with status := .CANCELLED, cancellation_reason := some "why" } ∧
    (cancelBooking 4 u1 (some "why") c4World).1 ≠ .error .InvalidState := by
  refine ⟨rfl, rfl, ?_⟩
  intro h
  rw [show (cancelBooking 4 u1 (some "why") c4World).1 =
      .ok { bkE with status := .CANCELLED, cancellation_reason := some "why" } from rfl] at h
  exact Except.noConfusion h

/-- Witness for C4's amended theorem: concrete success from `EXPIRED`. -/
theorem cancel_booking_state_guard_witness :
    (cancelBooking 4 u1 none c4World).1 =
      .ok { bkE with status := .CANCELLED, cancellation_reason := none } :=
  (cancel_booking_state_guard 4 u1 none c4World bkE (by rfl)).2
    (by intro h; cases h) (by intro h; cases h)

/-! ### C5 -/

/-- C5 (amended): the second `release` is NOT a no-op in general — it
decrements each covered record again, clamped at 0.  Release-twice equals
release-once precisely in the floored situation: when every covered record's
committed count was at most `rooms_count` to begin with (so the first release
already floors it to 0), as is the case when the booking being released holds
the only commitments.  The unconditional idempotence stated by the spec fails
(see the counterexample). -/
theorem release_twice_floored (b : Booking) (L : Ledger)
    (hr : 0 ≤ b.rooms_count)
    (hfl : ∀ d ∈ bookingDates b, ∀ inv, L b.room_id d = some inv →
        inv.booked_count ≤ b.rooms_count) :
    ∀ room d, releaseInventory b (releaseInventory b L) room d =
      releaseInventory b L room d := by
  intro room d
  have hget : ∀ M : Ledger, releaseInventory b M room d =
      if room = b.room_id ∧ d ∈ bookingDates b then
        (M room d).map (fun inv =>
          { inv with booked_count := max 0 (inv.booked_count - b.rooms_count) })
      else M room d := by
    intro M
    rw [releaseInventory]
    exact applyPerDate_get _ _ _ (bookingDates_nodup b) M room d
  rw [hget, hget]
  by_cases hc : room = b.room_id ∧ d ∈ bookingDates b
  · simp only [if_pos hc]
    obtain ⟨hc1, hc2⟩ := hc
    subst hc1
    rcases hL : L b.room_id d with _ | inv
    · rfl
    · rw [Option.map_some', Option.map_some']
      have hle := hfl d hc2 inv hL
      have e1 : max 0 (inv.booked_count - b.rooms_count) = 0 :=
        max_eq_left (sub_nonpos.mpr hle)
      dsimp only
      rw [e1]
      have e2 : max 0 ((0 : Int) - b.rooms_count) = 0 := max_eq_left (by omega)
      rw [e2]
  · simp only [if_neg hc]

/-- A one-night, one-room booking over date 0 of room 1. -/
def bk1n : Booking :=
  { id := 5, user_id := 1, hotel_id := 1, room_id := 1, check_in_date := 0,
    check_out_date := 1, rooms_count := 1, total_price := 100, status := .PENDING,
    special_requests := none, cancellation_reason := none,
    payment_session_id := none, guests := [] }

/-- A ledger where room 1, date 0 carries `committed = 2` (e.g. another
booking's commitment besides `bk1n`'s). -/
def ledgerTwo : Ledger := fun r d =>
  if r = 1 ∧ d = 0 then some { available_count := 5, booked_count := 2, price := 100 }
  else none

/-- C5 counterexample: with `committed = 2` and `rooms_count = 1`, one release
leaves 1 but a second release leaves 0 — releasing twice is NOT equivalent to
releasing once, contrary to the claim. -/
theorem release_not_idempotent :
    releaseInventory bk1n ledgerTwo 1 0 =
      some { available_count := 5, booked_count := 1, price := 100 } ∧
    releaseInventory bk1n (releaseInventory bk1n ledgerTwo) 1 0 =
      some { available_count := 5, booked_count := 0, price := 100 } ∧
    releaseInventory bk1n (releaseInventory bk1n ledgerTwo) 1 0 ≠
      releaseInventory bk1n ledgerTwo 1 0 := by
  refine ⟨rfl, rfl, ?_⟩
  intro h
  rw [show releaseInventory bk1n (releaseInventory bk1n ledgerTwo) 1 0 =
      some { available_count := 5, booked_count := 0, price := 100 } from rfl,
    show releaseInventory bk1n ledgerTwo 1 0 =
      some { available_count := 5, booked_count := 1, price := 100 } from rfl] at h
  injection h with h1
  have := congrArg InvRecord.booked_count h1
  exact absurd this (by decide)

/-- A ledger where room 1, date 0 carries exactly `bk1n`'s single commitment. -/
def ledgerOne : Ledger := fun r d =>
  if r = 1 ∧ d = 0 then some { available_count := 5, booked_count := 1, price := 100 }
  else none

/-- Witness for C5's amended theorem: when the committed count is at most
`rooms_count`, releasing twice equals releasing once. -/
theorem release_twice_floored_witness :
    releaseInventory bk1n (releaseInventory bk1n ledgerOne) 1 0 =
      releaseInventory bk1n ledgerOne 1 0 := by
  refine release_twice_floored bk1n ledgerOne (by decide) ?_ 1 0
  intro d hd inv hinv
  have hd0 : d = 0 := by
    rcases mem_rangeDates.mp hd with ⟨i, hi, rfl⟩
    have hi1 : i < 1 := by simpa [bk1n, Booking.nightsCount] using hi
    have hi0 : i = 0 := by omega
    subst hi0
    decide
  subst hd0
  rw [show ledgerOne bk1n.room_id 0 =
      some { available_count := 5, booked_count := 1, price := 100 } from rfl] at hinv
  injection hinv with h1
  rw [← h1]
  decide

/-! ### C6 -/

/-- C6: a successful cancel releases each covered night's committed count by
`rooms_count` (clamped at 0), sets the booking `CANCELLED` with the supplied
cancellation reason, flips a `COMPLETED` payment of this booking to
`REFUNDED`, and leaves payments in any other status (or of other bookings)
unchanged. -/
theorem cancel_booking_effects
    (booking_id : Nat) (user : User) (reason : Option String) (w : World)
    (b : Booking) (hb : getBookingById booking_id user w = .ok b)
    (h1 : b.status ≠ .CANCELLED) (h2 : b.status ≠ .CHECKED_OUT) :
    (cancelBooking booking_id user reason w).1 =
      .ok { b with status := .CANCELLED, cancellation_reason := reason } ∧
    (∀ d ∈ bookingDates b, ∀ inv, w.ledger b.room_id d = some inv →
        (cancelBooking booking_id user reason w).2.ledger b.room_id d =
          some { inv with
            booked_count := max 0 (inv.booked_count - b.rooms_count) }) ∧
    (∀ p ∈ w.payments, p.booking_id = b.id → p.status = .COMPLETED →
        { p with status := .REFUNDED } ∈
          (cancelBooking booking_id user reason w).2.payments) ∧
    (∀ p ∈ w.payments, ¬(p.booking_id = b.id ∧ p.status = .COMPLETED) →
        p ∈ (cancelBooking booking_id user reason w).2.payments) := by
  unfold cancelBooking
  rw [hb]
  dsimp only
  rw [if_neg (by rintro (h | h); exacts [h1 h, h2 h])]
  refine ⟨rfl, ?_, ?_, ?_⟩
  · intro d hd inv hinv
    dsimp only
    rw [releaseInventory, applyPerDate_get _ _ _ (bookingDates_nodup b)]
    rw [if_pos ⟨rfl, hd⟩, hinv, Option.map_some']
  · intro p hp hpb hps
    dsimp only
    have hm := List.mem_map_of_mem
      (fun q => if q.booking_id = b.id ∧ q.status = .COMPLETED
        then { q with status := PaymentStatus.REFUNDED } else q) hp
    dsimp only at hm
    rw [if_pos ⟨hpb, hps⟩] at hm
    exact hm
  · intro p hp hnc
    dsimp only
    have hm := List.mem_map_of_mem
      (fun q => if q.booking_id = b.id ∧ q.status = .COMPLETED
        then { q with status := PaymentStatus.REFUNDED } else q) hp
    dsimp only at hm
    rw [if_neg hnc] at hm
    exact hm

/-- A `CONFIRMED` booking owned by user 1 with a `COMPLETED` payment. -/
def bkC : Booking :=
  { id := 6, user_id := 1, hotel_id := 1, room_id := 1, check_in_date := 0,
    check_out_date := 1, rooms_count := 1, total_price := 100,
    status := .CONFIRMED, special_requests := none, cancellation_reason := none,
    payment_session_id := some "s6", guests := [] }

/-- The `COMPLETED` payment of `bkC`. -/
def payC : Payment :=
  { id := 11, booking_id := 6, amount := 100, currency := "USD",
    status := .COMPLETED, payment_method := some .UPI,
    transaction_id := some "tx6", payment_session_id := some "s6",
    paid_at := some 3 }

/-- Scenario E of the spec: a `CONFIRMED` booking with a `COMPLETED` payment
and one unit committed on its single night. -/
def c6World : World :=
  { hotels := [hotelA], rooms := [roomX], guestsTable := [], bookings := [bkC],
    payments := [payC], ledger := ledgerOne }

/-- Witness for C6: cancelling `bkC` releases the night, cancels the booking
and refunds the completed payment. -/
theorem cancel_booking_effects_witness :
    (cancelBooking 6 u1 (some "trip off") c6World).1 =
      .ok { bkC with status := .CANCELLED, cancellation_reason := some "trip off" } ∧
    (cancelBooking 6 u1 (some "trip off") c6World).2.ledger 1 0 =
      some { available_count := 5, booked_count := 0, price := 100 } ∧
    { payC with status := .REFUNDED } ∈
      (cancelBooking 6 u1 (some "trip off") c6World).2.payments := by
  have h := cancel_booking_effects 6 u1 (some "trip off") c6World bkC
    (by rfl) (by intro hx; cases hx) (by intro hx; cases hx)
  refine ⟨h.1, ?_, ?_⟩
  · have h2 := h.2.1 0 (by decide) { available_count := 5, booked_count := 1, price := 100 }
      (by rfl)
    exact h2.trans (by rfl)
  · exact h.2.2.1 payC (by simp [c6World]) (by rfl) (by rfl)

/-! ### C8 -/

/-- C8: `initiate_payment` for an owned booking fails `InvalidState` unless the
booking is `PENDING`; fails `AlreadyPaid` when a `COMPLETED` payment already
exists; returns the existing session (creating nothing, world unchanged) when a
`PENDING` payment exists; and otherwise creates exactly one new `PENDING`
payment with the fresh session id and stamps that session id on the booking. -/
theorem initiate_payment_spec
    (booking_id : Nat) (user : User) (method : PaymentMethod)
    (fresh : String) (freshId : Nat) (w : World) (b : Booking)
    (hfind : w.bookings.find? (fun bb => bb.id == booking_id) = some b)
    (howner : b.user_id = user.id) :
    (b.status ≠ .PENDING →
        initiatePayment booking_id user method fresh freshId w =
          (.error .InvalidState, w)) ∧
    (∀ p, b.status = .PENDING →
        w.payments.find? (fun q => q.booking_id == booking_id) = some p →
        (p.status = .COMPLETED →
          initiatePayment booking_id user method fresh freshId w =
            (.error .AlreadyPaid, w)) ∧
        (p.status = .PENDING →
          initiatePayment booking_id user method fresh freshId w =
            (.ok { payment_session_id := p.payment_session_id, amount := p.amount,
                   currency := p.currency }, w))) ∧
    (b.status = .PENDING →
        w.payments.find? (fun q => q.booking_id == booking_id) = none →
        (initiatePayment booking_id user method fresh freshId w).1 =
          .ok { payment_session_id := some fresh, amount := b.total_price,
                currency := "USD" } ∧
        (initiatePayment booking_id user method fresh freshId w).2.payments =
          w.payments ++
            [{ id := freshId, booking_id := booking_id, amount := b.total_price,
               currency := "USD", status := .PENDING, payment_method := some method,
               transaction_id := none, payment_session_id := some fresh,
               paid_at := none }] ∧
        { b with payment_session_id := some fresh } ∈
          (initiatePayment booking_id user method fresh freshId w).2.bookings) := by
  refine ⟨?_, ?_, ?_⟩
  · intro hnp
    unfold initiatePayment
    rw [hfind]
    dsimp only
    rw [if_neg (not_not_intro howner), if_pos hnp]
  · intro p hst hpfind
    unfold initiatePayment
    rw [hfind]
    dsimp only
    rw [if_neg (not_not_intro howner), if_neg (not_not_intro hst), hpfind]
    dsimp only
    constructor
    · intro hc
      rw [if_pos hc]
    · intro hpp
      have hnc : ¬ p.status = .COMPLETED := by
        intro hx
        rw [hpp] at hx
        cases hx
      rw [if_neg hnc, if_pos hpp]
  · intro hst hnone
    unfold initiatePayment
    rw [hfind]
    dsimp only
    rw [if_neg (not_not_intro howner), if_neg (not_not_intro hst), hnone]
    dsimp only
    refine ⟨rfl, rfl, ?_⟩
    have hbm : b ∈ w.bookings := List.mem_of_find?_eq_some hfind
    dsimp only [World.putBooking]
    have hm := List.mem_map_of_mem
      (fun q => if q.id = ({ b with payment_session_id := some fresh } : Booking).id
        then { b with payment_session_id := some fresh } else q) hbm
    dsimp only at hm
    rw [if_pos rfl] at hm
    exact hm

/-- Witness for C8: a second `initiate` against the still-`PENDING` payment of
`bkP` resumes the existing session "s1" and leaves the world unchanged. -/
theorem initiate_payment_spec_witness :
    initiatePayment 3 u1 .UPI "sessNew" 12 c3World =
      (.ok { payment_session_id := some "s1", amount := 200, currency := "USD" },
       c3World) := by
  have h := ((initiate_payment_spec 3 u1 .UPI "sessNew" 12 c3World bkP
    (by rfl) (by rfl)).2.1 payP (by rfl) (by rfl)).2 (by rfl)
  exact h.trans (by rfl)

/-! ### C9 -/

/-- C9 (amended): a `CANCELLED` or `CHECKED_OUT` booking is left untouched by
`cancel`, `add_guests` and `initiate` — each fails with `InvalidState` and the
world is returned unchanged.  The claim's full statement fails on the code:
`EXPIRED` is missing from the cancel guard (an `EXPIRED` booking can still be
cancelled), and `process_webhook` checks only the payment's status, so a
webhook for a still-`PENDING` payment session rewrites even a terminal
booking's status (see the counterexample). -/
theorem terminal_booking_guards
    (booking_id : Nat) (user : User) (reason : Option String)
    (guest_ids : List Nat) (method : PaymentMethod) (fresh : String)
    (freshId : Nat) (w : World) (b : Booking)
    (hb : getBookingById booking_id user w = .ok b)
    (howner : b.user_id = user.id)
    (hterm : b.status = .CANCELLED ∨ b.status = .CHECKED_OUT) :
    cancelBooking booking_id user reason w = (.error .InvalidState, w) ∧
    addGuestsToBooking booking_id user guest_ids w = (.error .InvalidState, w) ∧
    initiatePayment booking_id user method fresh freshId w =
      (.error .InvalidState, w) := by
  refine ⟨?_, ?_, ?_⟩
  · unfold cancelBooking
    rw [hb]
    dsimp only
    rw [if_pos hterm]
  · unfold addGuestsToBooking
    rw [hb]
    dsimp only
    have hns : ¬(b.status = .PENDING ∨ b.status = .CONFIRMED) := by
      rintro (h | h) <;> rcases hterm with h2 | h2 <;> rw [h2] at h <;> cases h
    rw [if_neg hns]
  · unfold initiatePayment
    rw [getBookingById_ok_find hb]
    dsimp only
    have hnp : b.status ≠ .PENDING := by
      intro hx
      rcases hterm with h2 | h2 <;> rw [h2] at hx <;> cases hx
    rw [if_neg (not_not_intro howner), if_pos hnp]

/-- A `CANCELLED` booking that still has a `PENDING` payment session "s9"
(cancel leaves a `PENDING` payment untouched, so this state is reachable by
cancelling a `PENDING` booking after initiating payment). -/
def bkTerm : Booking :=
  { id := 8, user_id := 1, hotel_id := 1, room_id := 1, check_in_date := 0,
    check_out_date := 1, rooms_count := 1, total_price := 100,
    status := .CANCELLED, special_requests := none,
    cancellation_reason := some "user cancel", payment_session_id := some "s9",
    guests := [] }

/-- The still-`PENDING` payment of the cancelled `bkTerm`. -/
def payTerm : Payment :=
  { id := 13, booking_id := 8, amount := 100, currency := "USD",
    status := .PENDING, payment_method := some .WALLET, transaction_id := none,
    payment_session_id := some "s9", paid_at := none }

/-- World holding the cancelled booking and its pending payment. -/
def c9World : World :=
  { hotels := [hotelA], rooms := [roomX], guestsTable := [], bookings := [bkTerm],
    payments := [payTerm], ledger := fun _ _ => none }

/-- A success webhook for session "s9". -/
def wh9 : WebhookPayload :=
  { payment_session_id := "s9", transaction_id := "tx9", status := "success",
    amount := 100, currency := "USD" }

/-- C9 counterexample: delivering the success webhook for the `PENDING` payment
of the already-`CANCELLED` booking `bkTerm` moves that terminal booking to
`CONFIRMED`, contradicting terminal immutability. -/
theorem webhook_confirms_terminal_booking :
    bkTerm.status = .CANCELLED ∧
    (processWebhook wh9 5 c9World).2.bookings =
      [{ bkTerm with status := .CONFIRMED }] :=
  ⟨rfl, rfl⟩

/-- Witness for C9's amended theorem on the concrete cancelled booking. -/
theorem terminal_booking_guards_witness :
    cancelBooking 8 u1 none c9World = (.error .InvalidState, c9World) ∧
    addGuestsToBooking 8 u1 [] c9World = (.error .InvalidState, c9World) ∧
    initiatePayment 8 u1 .WALLET "sx" 14 c9World = (.error .InvalidState, c9World) :=
  terminal_booking_guards 8 u1 none [] .WALLET "sx" 14 c9World bkTerm
    (by rfl) (by rfl) (Or.inl (by rfl))

/-! ### C10 -/

/-- C10 (amended): `add_guests` fails `InvalidState` unless the booking is
`PENDING` or `CONFIRMED`, fails `NotFound` (attaching nothing, world unchanged)
when the guests fetched for the requesting user fall short of the requested
ids, and otherwise APPENDS the fetched guests to the booking's guest list —
with no deduplication, so a guest already attached is appended a second time
(see the counterexample), contrary to the claimed set-like behaviour. -/
theorem add_guests_spec
    (booking_id : Nat) (user : User) (guest_ids : List Nat) (w : World)
    (b : Booking) (hb : getBookingById booking_id user w = .ok b) :
    (¬(b.status = .PENDING ∨ b.status = .CONFIRMED) →
        addGuestsToBooking booking_id user guest_ids w = (.error .InvalidState, w)) ∧
    ((b.status = .PENDING ∨ b.status = .CONFIRMED) →
        ((w.guestsTable.filter
            (fun g => guest_ids.contains g.id && g.user_id == user.id)).length ≠
            guest_ids.length →
          addGuestsToBooking booking_id user guest_ids w = (.error .NotFound, w)) ∧
        ((w.guestsTable.filter
            (fun g => guest_ids.contains g.id && g.user_id == user.id)).length =
            guest_ids.length →
          (addGuestsToBooking booking_id user guest_ids w).1 =
            .ok { b with
                  guests := b.guests ++
                    (w.guestsTable.filter
                      (fun g => guest_ids.contains g.id && g.user_id == user.id)).map
                        (fun g => g.id) })) := by
  constructor
  · intro hns
    unfold addGuestsToBooking
    rw [hb]
    dsimp only
    rw [if_neg hns]
  · intro hs
    unfold addGuestsToBooking
    rw [hb]
    dsimp only
    rw [if_pos hs]
    constructor
    · intro hne
      rw [if_neg hne]
    · intro heq
      rw [if_pos heq]

/-- Guest 1, owned by user 1. -/
def g1 : Guest := { id := 1, user_id := 1 }

/-- A `PENDING` booking that already has guest 1 attached. -/
def bkG : Booking :=
  { id := 7, user_id := 1, hotel_id := 1, room_id := 1, check_in_date := 0,
    check_out_date := 1, rooms_count := 1, total_price := 100, status := .PENDING,
    special_requests := none, cancellation_reason := none,
    payment_session_id := none, guests := [1] }

/-- World with guest 1 in the directory and booking `bkG` holding guest 1. -/
def c10World : World :=
  { hotels := [hotelA], rooms := [roomX], guestsTable := [g1], bookings := [bkG],
    payments := [], ledger := fun _ _ => none }

/-- C10 counterexample: adding guest 1 — already attached — to `bkG` appends it
again (`booking.guests.extend(guests)` does not deduplicate), so the guest ends
up attached twice, where the claim requires set-like attachment. -/
theorem add_guests_duplicates :
    bkG.guests = [1] ∧
    (addGuestsToBooking 7 u1 [1] c10World).1 = .ok { bkG with guests := [1, 1] } ∧
    ({ bkG with guests := [1, 1] } : Booking).guests.count 1 = 2 :=
  ⟨rfl, rfl, by decide⟩

/-- Witness for C10's amended theorem: requesting a guest id that does not
exist for this user fails with `NotFound` and changes nothing. -/
theorem add_guests_spec_witness :
    addGuestsToBooking 7 u1 [2] c10World = (.error .NotFound, c10World) :=
  ((add_guests_spec 7 u1 [2] c10World bkG (by rfl)).2 (Or.inl (by rfl))).1 (by decide)

end AirbnbLite
